import Mathlib

/-!
Verification development for the Engine Library access layer (libdjinterop
core): versioned schema management, version detection, and the versioned
storage facade (`el_storage`).  The definitions below are a shallow
embedding of the C++ sources (`el_storage.cpp`, `schema_validate_utils.hpp`):
SQL tables become Lean lists of row structures, the SQLite statements the
code issues become pure functions on those lists, and C++ exceptions become
`Except` errors.  Definitions come first, then the theorems about them.
-/

namespace EngineLibrary

/-- Ordered (major, minor, patch) triple carried by the `Information` row of
each store. -/
structure semantic_version where
  maj : Int
  min : Int
  pat : Int
deriving DecidableEq, Repr

/-- Lexicographic strict order on semantic versions. -/
def semantic_version.ltb (a b : semantic_version) : Bool :=
  decide (a.maj < b.maj) ||
    (a.maj == b.maj &&
      (decide (a.min < b.min) || (a.min == b.min && decide (a.pat < b.pat))))

/-- Modelled from the spec: the named version constants (`version_1_18_0_fw`,
`version_1_18_0_ep`, ...) are declared in headers that are not under `src/`.
The spec states that 1.18.0 exists in two variants — firmware-style `_fw`
and desktop-style `_ep` — which share the same numeric triple and are
distinct version tags; every other recognized version is just its triple. -/
inductive engine_version where
  | exact (v : semantic_version)
  | v_1_18_0_fw
  | v_1_18_0_ep
deriving DecidableEq, Repr

/-- The numeric triple underlying a version tag. -/
def engine_version.tuple : engine_version → semantic_version
  | .exact v => v
  | .v_1_18_0_fw => ⟨1, 18, 0⟩
  | .v_1_18_0_ep => ⟨1, 18, 0⟩

/-- `version >= w` comparison used by the storage facade to dispatch on the
active schema version (lexicographic on the numeric triples). -/
def engine_version.gev (v w : engine_version) : Bool :=
  !(semantic_version.ltb v.tuple w.tuple)

/-- The version constant `version_1_7_1`. -/
def version_1_7_1 : engine_version := .exact ⟨1, 7, 1⟩

/-- The version constant `version_1_11_1`. -/
def version_1_11_1 : engine_version := .exact ⟨1, 11, 1⟩

/-- The version constant `version_1_15_0`. -/
def version_1_15_0 : engine_version := .exact ⟨1, 15, 0⟩

/-- The version constant `version_1_18_0_fw`. -/
def version_1_18_0_fw : engine_version := .v_1_18_0_fw

/-- The version constant `version_1_18_0_ep`. -/
def version_1_18_0_ep : engine_version := .v_1_18_0_ep

/-- The error surface of the library (from `djinterop/exceptions.hpp`
usage sites in `el_storage.cpp` and `schema_validate_utils.hpp`). -/
inductive el_error where
  | database_not_found (path : String)
  | database_inconsistency (what : String)
  | unsupported_schema
  | track_deleted (id : Int)
  | track_database_inconsistency (what : String) (id : Int)
deriving DecidableEq, Repr

/-- One row of `PRAGMA <db>.table_info('<table>')`, as captured by
`schema_validate_utils.hpp` (`table_info_entry`). -/
structure table_info_entry where
  db_name : String
  table_name : String
  col_id : Int
  col_name : String
  col_type : String
  nullable : Int
  default_value : String
  part_of_pk : Int
deriving DecidableEq, Repr

/-- `get_column_type` from `el_storage.cpp`: scan the `table_info` rows and
remember the declared type of the requested column (the last matching row
wins, `none` when the column is absent). -/
def get_column_type (cols : List table_info_entry) (column_name : String) :
    Option String :=
  cols.foldl
    (fun acc c => if c.col_name == column_name then some c.col_type else acc)
    none

/-- The parts of an attached library (music + perfdata stores) that version
detection reads: the `sqlite_master` item names on each side, the version
triple stated by each side's `Information` row, and the
`PRAGMA music.table_info('Track')` rows used by the variant probe. -/
structure attached_db where
  music_master : List String
  perfdata_master : List String
  music_information : semantic_version
  perfdata_information : semantic_version
  music_track_cols : List table_info_entry
deriving DecidableEq, Repr

/-- `get_version` from `el_storage.cpp`.  Mirrors the code statement by
statement: (1) count `sqlite_master` rows named `Information` on each side
and require the sum to be 2; (2) read `music_version` from
`music.Information` and — exactly as the code does — read
`perfdata_version` from `music.Information` as well; compare the two;
(3) for the ambiguous 1.18.0 triple, probe the declared type of
`Track.isExternalTrack` and pick the variant. -/
def get_version (db : attached_db) : Except el_error engine_version :=
  let table_count : Int :=
    ((db.music_master.filter (fun n => n == "Information")).length : Int) +
      ((db.perfdata_master.filter (fun n => n == "Information")).length : Int)
  if table_count ≠ 2 then
    .error (.database_inconsistency
      "Did not find an Information table for both the music and performance databases")
  else
    let music_version := db.music_information
    let perfdata_version := db.music_information
    if music_version ≠ perfdata_version then
      .error (.database_inconsistency
        "The stated schema versions do not match between the music and performance data databases!")
    else if music_version.maj == 1 && music_version.min == 18 &&
        music_version.pat == 0 then
      let has_numeric_bools :=
        get_column_type db.music_track_cols "isExternalTrack" == some "NUMERIC"
      .ok (if has_numeric_bools then .v_1_18_0_ep else .v_1_18_0_fw)
    else
      .ok (.exact music_version)

/-- A 1.18.0 library whose `Track.isExternalTrack` column is declared
`NUMERIC`. -/
def numeric_bools_db : attached_db :=
  { music_master := ["Information", "Track"]
    perfdata_master := ["Information", "PerformanceData"]
    music_information := ⟨1, 18, 0⟩
    perfdata_information := ⟨1, 18, 0⟩
    music_track_cols :=
      [⟨"music", "Track", 11, "isExternalTrack", "NUMERIC", 0, "", 0⟩] }

/-- The same library except that `Track.isExternalTrack` is declared
`INTEGER`. -/
def integer_bools_db : attached_db :=
  { music_master := ["Information", "Track"]
    perfdata_master := ["Information", "PerformanceData"]
    music_information := ⟨1, 18, 0⟩
    perfdata_information := ⟨1, 18, 0⟩
    music_track_cols :=
      [⟨"music", "Track", 11, "isExternalTrack", "INTEGER", 0, "", 0⟩] }

/-- A library whose music store states schema version (1,13,0) while its
performance store states (1,13,1). -/
def mismatched_versions_db : attached_db :=
  { music_master := ["Information", "Track"]
    perfdata_master := ["Information", "PerformanceData"]
    music_information := ⟨1, 13, 0⟩
    perfdata_information := ⟨1, 13, 1⟩
    music_track_cols := [] }

/-- Modelled from the spec: the numeric values of the string metadata type
tags (`metadata_str_type`) are declared in a header not under `src/`.  The
spec names the slots (title, artist, album, genre, comment, publisher,
composer, duration-mm-ss, ever-played, file-extension and the unknown
slots 8, 9, 15, 16, 17), the unknown slot names carrying their numeric
tags. -/
def md_title : Int := 1

/-- String metadata tag: artist. -/
def md_artist : Int := 2

/-- String metadata tag: album. -/
def md_album : Int := 3

/-- String metadata tag: genre. -/
def md_genre : Int := 4

/-- String metadata tag: comment. -/
def md_comment : Int := 5

/-- String metadata tag: publisher. -/
def md_publisher : Int := 6

/-- String metadata tag: composer. -/
def md_composer : Int := 7

/-- String metadata tag: unknown slot 8. -/
def md_unknown_8 : Int := 8

/-- String metadata tag: unknown slot 9. -/
def md_unknown_9 : Int := 9

/-- String metadata tag: duration in mm:ss form. -/
def md_duration_mm_ss : Int := 10

/-- String metadata tag: ever-played marker. -/
def md_ever_played : Int := 11

/-- String metadata tag: file extension. -/
def md_file_extension : Int := 12

/-- String metadata tag: unknown slot 15. -/
def md_unknown_15 : Int := 15

/-- String metadata tag: unknown slot 16. -/
def md_unknown_16 : Int := 16

/-- String metadata tag: unknown slot 17. -/
def md_unknown_17 : Int := 17

/-- Modelled from the spec: the numeric values of the integer metadata type
tags (`metadata_int_type`).  The code's own comment records the hardware
insertion order 4, 5, 1, 2, 3, 6, 8, 7, 9, 10, 11 for the sequence
musical-key, rating, last-played-ts, last-modified-ts, last-accessed-ts,
unknown-6, unknown-8, unknown-7, unknown-9, last-play-hash, unknown-11,
which pins these values. -/
def mdi_last_played_ts : Int := 1

/-- Integer metadata tag: last-modified timestamp. -/
def mdi_last_modified_ts : Int := 2

/-- Integer metadata tag: last-accessed timestamp. -/
def mdi_last_accessed_ts : Int := 3

/-- Integer metadata tag: musical key. -/
def mdi_musical_key : Int := 4

/-- Integer metadata tag: rating. -/
def mdi_rating : Int := 5

/-- Integer metadata tag: unknown slot 6. -/
def mdi_unknown_6 : Int := 6

/-- Integer metadata tag: unknown slot 7. -/
def mdi_unknown_7 : Int := 7

/-- Integer metadata tag: unknown slot 8. -/
def mdi_unknown_8 : Int := 8

/-- Integer metadata tag: unknown slot 9. -/
def mdi_unknown_9 : Int := 9

/-- Integer metadata tag: last-play hash. -/
def mdi_last_play_hash : Int := 10

/-- Integer metadata tag: unknown slot 11. -/
def mdi_unknown_11 : Int := 11

/-- Integer metadata tag: unknown slot 12. -/
def mdi_unknown_12 : Int := 12

/-- One row of the `MetaData` table: (track id, type tag, text), the text
nullable. -/
structure meta_data_row where
  id : Int
  typ : Int
  text : Option String
deriving DecidableEq, Repr

/-- The `MetaData` table, in rowid order. -/
abbrev meta_data_table := List meta_data_row

/-- `REPLACE INTO MetaData (id, type, text) VALUES (?, ?, ?)`: delete any
row conflicting on the (id, type) primary key, then append the new row. -/
def replace_meta_data (t : meta_data_table) (id typ : Int)
    (text : Option String) : meta_data_table :=
  (t.filter (fun r => !(r.id == id && r.typ == typ))) ++ [⟨id, typ, text⟩]

/-- `el_storage::set_meta_data(id, type, content)` from `el_storage.cpp`:
both the nullopt branch and the string branch issue the same `REPLACE`,
binding the content or an SQL NULL. -/
def set_meta_data_one (t : meta_data_table) (id typ : Int)
    (content : Option String) : meta_data_table :=
  replace_meta_data t id typ content

/-- `el_storage::get_all_meta_data` from `el_storage.cpp`:
`SELECT id, type, text FROM MetaData WHERE id = ? AND text IS NOT NULL`. -/
def get_all_meta_data (t : meta_data_table) (id : Int) : List meta_data_row :=
  t.filter (fun r => r.id == id && r.text.isSome)

/-- `el_storage::get_meta_data` from `el_storage.cpp`:
`SELECT text FROM MetaData WHERE id = ? AND type = ? AND text IS NOT NULL`;
the first row becomes the result and a second row raises
`track_database_inconsistency`. -/
def get_meta_data (t : meta_data_table) (id typ : Int) :
    Except el_error (Option String) :=
  match t.filter (fun r => r.id == id && r.typ == typ && r.text.isSome) with
  | [] => .ok none
  | [r] => .ok r.text
  | _ :: _ :: _ => .error (.track_database_inconsistency
      "More than one MetaData entry of the same type for the same track" id)

/-- The bulk overload `el_storage::set_meta_data(id, title, ..,
file_extension)` from `el_storage.cpp`: one 15-row
`INSERT OR REPLACE INTO MetaData`, with rows created even for null values,
the literal string "1" in unknown slots 15 and 16 and explicit nulls in
unknown slots 8, 9 and 17. -/
def set_meta_data (t : meta_data_table) (id : Int)
    (title artist album genre comment publisher composer duration_mm_ss
      ever_played file_extension : Option String) : meta_data_table :=
  let no_value : Option String := none
  [(md_title, title), (md_artist, artist), (md_album, album),
    (md_genre, genre), (md_comment, comment), (md_publisher, publisher),
    (md_composer, composer), (md_unknown_8, no_value),
    (md_unknown_9, no_value), (md_duration_mm_ss, duration_mm_ss),
    (md_ever_played, ever_played), (md_file_extension, file_extension),
    (md_unknown_15, some "1"), (md_unknown_16, some "1"),
    (md_unknown_17, no_value)].foldl
    (fun acc p => replace_meta_data acc id p.1 p.2) t

/-- The 15 `MetaData` rows the canonical bulk write produces for a track,
in statement order. -/
def canonical_rows (id : Int)
    (title artist album genre comment publisher composer duration_mm_ss
      ever_played file_extension : Option String) : List meta_data_row :=
  [⟨id, md_title, title⟩, ⟨id, md_artist, artist⟩, ⟨id, md_album, album⟩,
    ⟨id, md_genre, genre⟩, ⟨id, md_comment, comment⟩,
    ⟨id, md_publisher, publisher⟩, ⟨id, md_composer, composer⟩,
    ⟨id, md_unknown_8, none⟩, ⟨id, md_unknown_9, none⟩,
    ⟨id, md_duration_mm_ss, duration_mm_ss⟩,
    ⟨id, md_ever_played, ever_played⟩,
    ⟨id, md_file_extension, file_extension⟩,
    ⟨id, md_unknown_15, some "1"⟩, ⟨id, md_unknown_16, some "1"⟩,
    ⟨id, md_unknown_17, none⟩]

/-- One row of the `MetaDataInteger` table: (track id, type tag, value),
the value nullable. -/
structure meta_data_integer_row where
  id : Int
  typ : Int
  value : Option Int
deriving DecidableEq, Repr

/-- The `MetaDataInteger` table, in rowid order. -/
abbrev meta_data_integer_table := List meta_data_integer_row

/-- `REPLACE INTO MetaDataInteger (id, type, value) VALUES (?, ?, ?)`. -/
def replace_meta_data_integer (t : meta_data_integer_table) (id typ : Int)
    (value : Option Int) : meta_data_integer_table :=
  (t.filter (fun r => !(r.id == id && r.typ == typ))) ++ [⟨id, typ, value⟩]

/-- The bulk overload `el_storage::set_meta_data_integer(id, musical_key,
.., last_play_hash)` from `el_storage.cpp`: one 12-row
`INSERT OR REPLACE INTO MetaDataInteger` replicating the hardware-observed
insertion order and the constant 1 in unknown slots 11 and 12. -/
def set_meta_data_integer (t : meta_data_integer_table) (id : Int)
    (musical_key rating last_played_timestamp last_modified_timestamp
      last_accessed_timestamp last_play_hash : Option Int) :
    meta_data_integer_table :=
  let no_value : Option Int := none
  [(mdi_musical_key, musical_key), (mdi_rating, rating),
    (mdi_last_played_ts, last_played_timestamp),
    (mdi_last_modified_ts, last_modified_timestamp),
    (mdi_last_accessed_ts, last_accessed_timestamp),
    (mdi_unknown_6, no_value), (mdi_unknown_8, no_value),
    (mdi_unknown_7, no_value), (mdi_unknown_9, no_value),
    (mdi_last_play_hash, last_play_hash), (mdi_unknown_11, some 1),
    (mdi_unknown_12, some 1)].foldl
    (fun acc p => replace_meta_data_integer acc id p.1 p.2) t

/-- The 12 `MetaDataInteger` rows the canonical bulk write produces for a
track, in statement order — the hardware-observed tag order
4, 5, 1, 2, 3, 6, 8, 7, 9, 10, 11, 12. -/
def canonical_integer_rows (id : Int)
    (musical_key rating last_played_timestamp last_modified_timestamp
      last_accessed_timestamp last_play_hash : Option Int) :
    List meta_data_integer_row :=
  [⟨id, mdi_musical_key, musical_key⟩, ⟨id, mdi_rating, rating⟩,
    ⟨id, mdi_last_played_ts, last_played_timestamp⟩,
    ⟨id, mdi_last_modified_ts, last_modified_timestamp⟩,
    ⟨id, mdi_last_accessed_ts, last_accessed_timestamp⟩,
    ⟨id, mdi_unknown_6, none⟩, ⟨id, mdi_unknown_8, none⟩,
    ⟨id, mdi_unknown_7, none⟩, ⟨id, mdi_unknown_9, none⟩,
    ⟨id, mdi_last_play_hash, last_play_hash⟩,
    ⟨id, mdi_unknown_11, some 1⟩, ⟨id, mdi_unknown_12, some 1⟩]

/-- The union-of-all-versions `Track` row value (`track_row` in
`el_storage.hpp` usage): every field optional; `fileBytes` and `uri` exist
from 1.15.0, `pdbImportKey` from 1.7.1, `isBeatGridLocked` from 1.18.0.
SQL doubles are modelled as rationals. -/
structure track_row where
  play_order : Option Int
  length : Option Int
  length_calculated : Option Int
  bpm : Option Int
  year : Option Int
  relative_path : Option String
  filename : Option String
  bitrate : Option Int
  bpm_analyzed : Option Rat
  track_type : Option Int
  is_external_track : Option Int
  uuid_of_external_database : Option String
  id_track_in_external_database : Option Int
  album_art_id : Option Int
  file_bytes : Option Int
  pdb_import_key : Option Int
  uri : Option String
  is_beatgrid_locked : Option Int
deriving DecidableEq, Repr

/-- Modelled from the spec: the six decoded blob shapes and their default
values (§4.B) live in `performance_data_format.hpp`, not under `src/`.
The claims over performance data only need each shape to carry a
distinguished default value, as produced by decoding an empty column. -/
structure track_data where
  sample_rate : Option Rat
  samples : Option Rat
  average_loudness : Option Rat
  key : Option Int
deriving DecidableEq, Repr

/-- The default (not-yet-analyzed) track-data value. -/
def track_data.default : track_data := ⟨none, none, none, none⟩

/-- A beatgrid marker: sample offset, beat number within bar, beats until
the next marker, source flag. -/
structure beat_grid_marker where
  sample_offset : Rat
  index : Int
  beats_until_next_marker : Int
  unknown_value : Int
deriving DecidableEq, Repr

/-- Decoded beat-data blob: sample rate, samples, default and adjusted
beatgrids. -/
structure beat_data where
  sample_rate : Option Rat
  samples : Option Rat
  default_beat_grid : List beat_grid_marker
  adjusted_beat_grid : List beat_grid_marker
deriving DecidableEq, Repr

/-- The default beat-data value. -/
def beat_data.default : beat_data := ⟨none, none, [], []⟩

/-- A single waveform channel sample: value and opacity, each 0–255. -/
structure waveform_point where
  value : Int
  opacity : Int
deriving DecidableEq, Repr

/-- A high-resolution waveform entry: low, mid and high channels. -/
structure high_res_waveform_point where
  low : waveform_point
  mid : waveform_point
  high : waveform_point
deriving DecidableEq, Repr

/-- Decoded high-resolution waveform blob. -/
structure high_res_waveform_data where
  samples_per_entry : Rat
  waveform : List high_res_waveform_point
deriving DecidableEq, Repr

/-- The default high-resolution waveform value. -/
def high_res_waveform_data.default : high_res_waveform_data := ⟨0, []⟩

/-- Decoded overview waveform blob. -/
structure overview_waveform_data where
  samples_per_entry : Rat
  waveform : List waveform_point
deriving DecidableEq, Repr

/-- The default overview waveform value. -/
def overview_waveform_data.default : overview_waveform_data := ⟨0, []⟩

/-- An RGBA pad colour. -/
structure pad_color where
  r : Int
  g : Int
  b : Int
  a : Int
deriving DecidableEq, Repr

/-- A quick cue: label, sample offset (negative = unset), pad colour. -/
structure hot_cue where
  label : String
  sample_offset : Rat
  color : pad_color
deriving DecidableEq, Repr

/-- Decoded quick-cues blob. -/
structure quick_cues_data where
  hot_cues : List hot_cue
  adjusted_main_cue : Rat
  default_main_cue : Rat
deriving DecidableEq, Repr

/-- The default quick-cues value. -/
def quick_cues_data.default : quick_cues_data := ⟨[], 0, 0⟩

/-- A saved loop: label, start and end samples, set flags, colour. -/
structure loop_row where
  label : String
  start_sample_offset : Rat
  end_sample_offset : Rat
  is_start_set : Bool
  is_end_set : Bool
  color : pad_color
deriving DecidableEq, Repr

/-- Decoded loops blob. -/
structure loops_data where
  loops : List loop_row
deriving DecidableEq, Repr

/-- The default loops value. -/
def loops_data.default : loops_data := ⟨[]⟩

/-- One decoded row of the `PerformanceData` table.  The
`hasRekordboxValues` column exists from 1.7.1 and `hasTraktorValues` from
1.11.1; readers on older versions leave those fields value-initialized
(zero), mirroring the shorter `performance_data_row` aggregate
initializations in `el_storage.cpp`. -/
structure performance_data_row where
  id : Int
  is_analyzed : Int
  is_rendered : Int
  trackData : track_data
  highResWaveformData : high_res_waveform_data
  overviewWaveformData : overview_waveform_data
  beatData : beat_data
  quickCuesData : quick_cues_data
  loopsData : loops_data
  has_serato_values : Int
  has_rekordbox_values : Int
  has_traktor_values : Int
deriving DecidableEq, Repr

/-- `performance_data_row{id}`: the synthesized default row for a track
with no `PerformanceData` row — every other member value-initialized. -/
def default_performance_data_row (id : Int) : performance_data_row :=
  ⟨id, 0, 0, track_data.default, high_res_waveform_data.default,
    overview_waveform_data.default, beat_data.default,
    quick_cues_data.default, loops_data.default, 0, 0, 0⟩

/-- The state of an open `el_storage`: active schema version, the `Track`
table as (id, row) pairs in rowid order with the next rowid to assign, and
the `PerformanceData` table (blob columns held in decoded form). -/
structure el_storage where
  version : engine_version
  tracks : List (Int × track_row)
  next_track_id : Int
  performance_data : List performance_data_row
deriving DecidableEq, Repr

/-- The `Track` row stored by `el_storage::create_track`: each version
branch `INSERT`s exactly the columns of that schema version, so fields
newer than the active version are not bound (they stay NULL). -/
def create_track_row (ver : engine_version) (x : track_row) : track_row :=
  if ver.gev version_1_18_0_fw then
    x
  else if ver.gev version_1_15_0 then
    { x with is_beatgrid_locked := none }
  else if ver.gev version_1_7_1 then
    { x with file_bytes := none, uri := none, is_beatgrid_locked := none }
  else
    { x with
      file_bytes := none
      pdb_import_key := none
      uri := none
      is_beatgrid_locked := none }

/-- `el_storage::create_track` from `el_storage.cpp`: insert the
version-projected row and return `last_insert_rowid`. -/
def create_track (s : el_storage) (x : track_row) : Int × el_storage :=
  (s.next_track_id,
    { s with
      tracks := s.tracks ++ [(s.next_track_id, create_track_row s.version x)]
      next_track_id := s.next_track_id + 1 })

/-- The `track_row` value the `get_track` row callback constructs from a
stored row: each version branch `SELECT`s exactly the columns of that
schema version and leaves the remaining members `nullopt`. -/
def get_track_read (ver : engine_version) (r : track_row) : track_row :=
  if ver.gev version_1_18_0_fw then
    r
  else if ver.gev version_1_15_0 then
    { r with is_beatgrid_locked := none }
  else if ver.gev version_1_7_1 then
    { r with file_bytes := none, uri := none, is_beatgrid_locked := none }
  else
    { r with
      file_bytes := none
      pdb_import_key := none
      uri := none
      is_beatgrid_locked := none }

/-- The per-row callback of `el_storage::get_track`: a second matching row
raises `track_database_inconsistency`, otherwise the row is read into the
result. -/
def get_track_step (ver : engine_version) (id : Int)
    (acc : Option track_row) (p : Int × track_row) :
    Except el_error (Option track_row) :=
  if p.1 == id then
    match acc with
    | some _ => Except.error (el_error.track_database_inconsistency
        "More than one track with the same id" id)
    | none => Except.ok (some (get_track_read ver p.2))
  else Except.ok acc

/-- `el_storage::get_track` from `el_storage.cpp`:
`SELECT .. FROM Track WHERE id = ?`, iterating the matching rows with the
callback above; an empty result raises `track_deleted`. -/
def get_track (s : el_storage) (id : Int) : Except el_error track_row := do
  let result ← s.tracks.foldlM (get_track_step s.version id) none
  match result with
  | none => Except.error (el_error.track_deleted id)
  | some r => pure r

/-- The row produced by `el_storage::update_track` for a matching row: each
version branch `SET`s exactly the columns of that schema version, so the
supplied values of newer fields are ignored and the stored (NULL) column
values persist. -/
def update_track_row (ver : engine_version) (old x : track_row) : track_row :=
  if ver.gev version_1_18_0_fw then
    x
  else if ver.gev version_1_15_0 then
    { x with is_beatgrid_locked := old.is_beatgrid_locked }
  else if ver.gev version_1_7_1 then
    { x with
      file_bytes := old.file_bytes
      uri := old.uri
      is_beatgrid_locked := old.is_beatgrid_locked }
  else
    { x with
      file_bytes := old.file_bytes
      pdb_import_key := old.pdb_import_key
      uri := old.uri
      is_beatgrid_locked := old.is_beatgrid_locked }

/-- `el_storage::update_track` from `el_storage.cpp`:
`UPDATE Track SET .. WHERE id = ?`. -/
def update_track (s : el_storage) (id : Int) (x : track_row) : el_storage :=
  { s with
    tracks := s.tracks.map
      (fun p => if p.1 == id then (p.1, update_track_row s.version p.2 x)
        else p) }

/-- Spec-side projection of a track value onto the fields of a schema
version: fields introduced in a version later than the active one are
`None` ("project(x, fields-of(V))" in the spec). -/
def project_track (ver : engine_version) (x : track_row) : track_row :=
  { x with
    file_bytes := if ver.gev version_1_15_0 then x.file_bytes else none
    pdb_import_key := if ver.gev version_1_7_1 then x.pdb_import_key else none
    uri := if ver.gev version_1_15_0 then x.uri else none
    is_beatgrid_locked :=
      if ver.gev version_1_18_0_fw then x.is_beatgrid_locked else none }

/-- A concrete track value with every field absent. -/
def empty_track : track_row :=
  ⟨none, none, none, none, none, none, none, none, none, none, none, none,
    none, none, none, none, none, none⟩

/-- A concrete track value exercising most fields, including one
(`is_beatgrid_locked`) that only exists from 1.18.0. -/
def sample_track_a : track_row :=
  ⟨some 1, some 240, some 240, some 128, some 2020, some "/a/b.mp3",
    some "b.mp3", some 320000, some (12796 / 100 : Rat), some 1, some 0,
    none, none, some 3, some 9000000, some 42, some "uri:a", some 1⟩

/-- A second concrete track value, used as an update payload. -/
def sample_track_b : track_row :=
  ⟨some 2, some 241, some 241, some 90, some 1999, some "/c/d.mp3",
    some "d.mp3", some 256000, some (90 : Rat), some 2, some 1,
    some "11111111-2222-3333-4444-555555555555", some 17, none, some 123,
    some 7, some "uri:b", some 0⟩

/-- What the `get_performance_data` row callback constructs from a stored
row: versions before 1.11.1 do not select `hasTraktorValues` and versions
before 1.7.1 do not select `hasRekordboxValues`; the unselected members of
the row aggregate stay value-initialized at zero. -/
def get_performance_data_read (ver : engine_version)
    (r : performance_data_row) : performance_data_row :=
  if ver.gev version_1_11_1 then
    r
  else if ver.gev version_1_7_1 then
    { r with has_traktor_values := 0 }
  else
    { r with
      has_rekordbox_values := 0
      has_traktor_values := 0 }

/-- The per-row callback of `el_storage::get_performance_data`: a second
matching row raises `track_database_inconsistency`. -/
def get_performance_data_step (ver : engine_version) (id : Int)
    (acc : Option performance_data_row) (r : performance_data_row) :
    Except el_error (Option performance_data_row) :=
  if r.id == id then
    match acc with
    | some _ => Except.error (el_error.track_database_inconsistency
        "More than one track with the same id" id)
    | none => Except.ok (some (get_performance_data_read ver r))
  else Except.ok acc

/-- `el_storage::get_performance_data` from `el_storage.cpp`:
`SELECT .. FROM PerformanceData WHERE id = ?`; when no row matches, the
synthesized default row `performance_data_row{id}` is returned — absence
of performance data is a legitimate not-yet-analyzed state, not an
error. -/
def get_performance_data (s : el_storage) (id : Int) :
    Except el_error performance_data_row := do
  let result ← s.performance_data.foldlM
    (get_performance_data_step s.version id) none
  match result with
  | none => pure (default_performance_data_row id)
  | some r => pure r

/-- One row of `SELECT name, tbl_name FROM <db>.sqlite_master WHERE type =
'<item_type>'`, as captured by `schema_validate_utils.hpp`
(`master_list_entry`). -/
structure master_list_entry where
  db_name : String
  item_name : String
  table_name : String
deriving DecidableEq, Repr

/-- One row of `PRAGMA <db>.index_list('<table>')`
(`index_list_entry`; the source field `partial_index` is named
`partiality` here). -/
structure index_list_entry where
  db_name : String
  table_name : String
  index_id : Int
  index_name : String
  unique : Int
  creation_method : String
  partiality : Int
deriving DecidableEq, Repr

/-- One row of `PRAGMA <db>.index_info('<index>')` (`index_info_entry`). -/
structure index_info_entry where
  db_name : String
  index_name : String
  col_index_id : Int
  col_table_id : Int
  col_name : String
deriving DecidableEq, Repr

/-- `operator<` on `master_list_entry`: ordering key is the item name. -/
def master_list_entry.ltb (o1 o2 : master_list_entry) : Bool :=
  decide (o1.item_name < o2.item_name)

/-- `operator<` on `table_info_entry`: ordering key is the column name. -/
def table_info_entry.ltb (o1 o2 : table_info_entry) : Bool :=
  decide (o1.col_name < o2.col_name)

/-- `operator<` on `index_list_entry`: ordering key is the index name. -/
def index_list_entry.ltb (o1 o2 : index_list_entry) : Bool :=
  decide (o1.index_name < o2.index_name)

/-- `operator<` on `index_info_entry`: ordering key is the column rank
within the index. -/
def index_info_entry.ltb (o1 o2 : index_info_entry) : Bool :=
  decide (o1.col_index_id < o2.col_index_id)

/-- `std::set<T>::insert` under comparator `ltb`: the element is inserted
only when no equivalent element (neither less nor greater under `ltb`) is
already present; otherwise the set is unchanged and the new element is
silently discarded.  The list keeps insertion order; only membership and
retention are relied upon. -/
def set_insert {α : Type} (ltb : α → α → Bool) (s : List α) (x : α) :
    List α :=
  if s.any (fun y => !(ltb x y) && !(ltb y x)) then s else s ++ [x]

/-- The catalog snapshot built by the `master_list` / `table_info` /
`index_list` / `index_info` constructors in `schema_validate_utils.hpp`:
every queried row is inserted into a `std::set` in query order. -/
def set_of_list {α : Type} (ltb : α → α → Bool) (xs : List α) : List α :=
  xs.foldl (set_insert ltb) []

/-- The `validate` overload for `sqlite_master` entries from
`schema_validate_utils.hpp`; the C++ iterator position is modelled as the
remaining observed list. -/
def validate_master (observed : List master_list_entry)
    (db_name item_type item_name table_name : String) :
    Except el_error Unit :=
  match observed with
  | [] => .error (.database_inconsistency
      ("Item " ++ item_name ++ " of type " ++ item_type ++
        " (relating to table " ++ table_name ++ ") missing from DB " ++
        db_name))
  | e :: _ =>
    if e.item_name ≠ item_name then
      .error (.database_inconsistency
        ("Item " ++ e.item_name ++ " of type " ++ item_type ++
          " (relating to table " ++ e.table_name ++ ") on " ++ db_name ++
          " in wrong order, expected " ++ item_name ++
          " (relating to table " ++ table_name ++ ")"))
    else .ok ()

/-- The `validate` overload for table columns: name (order), declared type,
nullability, default value and primary-key membership are compared in that
order and the first mismatch raises. -/
def validate_table_info (observed : List table_info_entry)
    (col_name col_type : String) (nullable : Int) (default_value : String)
    (part_of_pk : Int) : Except el_error Unit :=
  match observed with
  | [] => .error (.database_inconsistency
      ("Column " ++ col_name ++ " missing"))
  | e :: _ =>
    if e.col_name ≠ col_name then
      .error (.database_inconsistency
        ("Column " ++ e.col_name ++ " on " ++ e.table_name ++
          " in wrong order, expected " ++ col_name))
    else if e.col_type ≠ col_type then
      .error (.database_inconsistency
        ("Column " ++ col_name ++ " on " ++ e.table_name ++
          " has wrong type: " ++ e.col_type ++ ", expected " ++ col_type))
    else if e.nullable ≠ nullable then
      .error (.database_inconsistency
        ("Column " ++ col_name ++ " on " ++ e.table_name ++
          " has wrong nullability: " ++ toString e.nullable))
    else if e.default_value ≠ default_value then
      .error (.database_inconsistency
        ("Column " ++ col_name ++ " on " ++ e.table_name ++
          " has wrong default value: \"" ++ e.default_value ++
          "\", expected \"" ++ default_value ++ "\""))
    else if e.part_of_pk ≠ part_of_pk then
      .error (.database_inconsistency
        ("Column " ++ col_name ++ " on " ++ e.table_name ++
          " has wrong PK membership: " ++ toString e.part_of_pk))
    else .ok ()

/-- The `validate` overload for indices: name (order), uniqueness, creation
method and partiality are compared in that order. -/
def validate_index_list (observed : List index_list_entry)
    (index_name : String) (unique : Int) (creation_method : String)
    (partiality : Int) : Except el_error Unit :=
  match observed with
  | [] => .error (.database_inconsistency
      ("Index " ++ index_name ++ " missing"))
  | e :: _ =>
    if e.index_name ≠ index_name then
      .error (.database_inconsistency
        ("Index " ++ e.index_name ++ " on " ++ e.table_name ++
          " in wrong order, expected " ++ index_name))
    else if e.unique ≠ unique then
      .error (.database_inconsistency
        ("Index " ++ index_name ++ " on " ++ e.table_name ++
          " has wrong uniqueness: " ++ toString e.unique))
    else if e.creation_method ≠ creation_method then
      .error (.database_inconsistency
        ("Index " ++ index_name ++ " on " ++ e.table_name ++
          " has wrong creation method: \"" ++ e.creation_method ++ "\""))
    else if e.partiality ≠ partiality then
      .error (.database_inconsistency
        ("Index " ++ index_name ++ " on " ++ e.table_name ++
          " has wrong \"partiality\": " ++ toString e.partiality))
    else .ok ()

/-- The `validate` overload for index columns: rank within the index, then
column name. -/
def validate_index_info (observed : List index_info_entry)
    (col_index_id : Int) (col_name : String) : Except el_error Unit :=
  match observed with
  | [] => .error (.database_inconsistency
      ("Col " ++ col_name ++ " missing from index"))
  | e :: _ =>
    if e.col_index_id ≠ col_index_id then
      .error (.database_inconsistency
        ("Col " ++ col_name ++ " on " ++ e.index_name ++
          " has wrong rank within the index: " ++ toString e.col_index_id))
    else if e.col_name ≠ col_name then
      .error (.database_inconsistency
        ("Col " ++ e.col_name ++ " on " ++ e.index_name ++
          " in wrong order, expected " ++ col_name))
    else .ok ()

/-- `validate_no_more` from `schema_validate_utils.hpp`: after the lockstep
walk, any remaining observed entry raises. -/
def validate_no_more {α : Type} (observed : List α)
    (validation_type item : String) : Except el_error Unit :=
  match observed with
  | [] => .ok ()
  | _ :: _ => .error (.database_inconsistency
      (validation_type ++ " for " ++ item ++
        " has more entries than expected"))

/-! Theorems.  Helper lemmas first, then one theorem per claim (with its
counterexample and witness where applicable). -/

/-- Unfolding of the lexicographic strict order. -/
theorem ltb_true_iff (a b : semantic_version) :
    semantic_version.ltb a b = true ↔
      (a.maj < b.maj ∨ (a.maj = b.maj ∧
        (a.min < b.min ∨ (a.min = b.min ∧ a.pat < b.pat)))) := by
  simp [semantic_version.ltb]

/-- Transitivity of the non-strict lexicographic order. -/
theorem ltb_ge_trans (t a b : semantic_version)
    (h1 : semantic_version.ltb t a = false)
    (h2 : semantic_version.ltb a b = false) :
    semantic_version.ltb t b = false := by
  rw [← Bool.not_eq_true, ltb_true_iff] at h1 h2 ⊢
  omega

/-- A version at least `a` is at least any `b` below `a`. -/
theorem gev_mono (v a b : engine_version)
    (hab : semantic_version.ltb a.tuple b.tuple = false)
    (h : v.gev a = true) : v.gev b = true := by
  simp only [engine_version.gev, Bool.not_eq_true'] at h ⊢
  exact ltb_ge_trans _ _ _ h hab

/-- Rows surviving a filter on the complement of `p` never satisfy any
predicate `q` at least as strong as `p`. -/
theorem filter_of_filter_not {α : Type} (l : List α) (p q : α → Bool)
    (h : ∀ a, q a = true → p a = true) :
    (l.filter (fun a => !(p a))).filter q = [] := by
  induction l with
  | nil => rfl
  | cons a l ih =>
    by_cases hp : p a
    · simpa [hp] using ih
    · have hq : q a = false := by
        cases hqa : q a
        · rfl
        · exact absurd (h a hqa) (by simp [hp])
      simpa [hp, hq] using ih

/-- A sequence of keyed `REPLACE`s for track `id` leaves rows of other
tracks untouched, in place, in front. -/
theorem fold_replace_fresh (id : Int) (ps : List (Int × Option String)) :
    ∀ t u : meta_data_table, (∀ r ∈ t, r.id ≠ id) →
      ps.foldl (fun acc p => replace_meta_data acc id p.1 p.2) (t ++ u) =
        t ++ ps.foldl (fun acc p => replace_meta_data acc id p.1 p.2) u := by
  induction ps with
  | nil => intro t u _; rfl
  | cons p ps ih =>
    intro t u h
    have hsplit : replace_meta_data (t ++ u) id p.1 p.2 =
        t ++ replace_meta_data u id p.1 p.2 := by
      unfold replace_meta_data
      rw [List.filter_append]
      have ht : t.filter (fun r => !(r.id == id && r.typ == p.1)) = t := by
        rw [List.filter_eq_self]
        intro r hr
        simp [h r hr]
      rw [ht, List.append_assoc]
    show ps.foldl _ (replace_meta_data (t ++ u) id p.1 p.2) = _
    rw [hsplit, ih t _ h]
    rfl

/-- On an empty table the canonical bulk write produces exactly the 15
canonical rows. -/
theorem set_meta_data_on_empty (id : Int)
    (title artist album genre comment publisher composer duration_mm_ss
      ever_played file_extension : Option String) :
    set_meta_data [] id title artist album genre comment publisher composer
        duration_mm_ss ever_played file_extension =
      canonical_rows id title artist album genre comment publisher composer
        duration_mm_ss ever_played file_extension := by
  simp [set_meta_data, replace_meta_data, canonical_rows, md_title, md_artist,
    md_album, md_genre, md_comment, md_publisher, md_composer, md_unknown_8,
    md_unknown_9, md_duration_mm_ss, md_ever_played, md_file_extension,
    md_unknown_15, md_unknown_16, md_unknown_17]

/-- The canonical bulk write only appends to a table holding no rows of the
written track. -/
theorem set_meta_data_split (t : meta_data_table) (id : Int)
    (title artist album genre comment publisher composer duration_mm_ss
      ever_played file_extension : Option String)
    (hfresh : ∀ r ∈ t, r.id ≠ id) :
    set_meta_data t id title artist album genre comment publisher composer
        duration_mm_ss ever_played file_extension =
      t ++ set_meta_data [] id title artist album genre comment publisher
        composer duration_mm_ss ever_played file_extension := by
  conv_lhs => rw [show t = t ++ [] from (List.append_nil t).symm]
  exact fold_replace_fresh id _ t [] hfresh

/-- Integer analogue of `fold_replace_fresh`. -/
theorem fold_replace_integer_fresh (id : Int) (ps : List (Int × Option Int)) :
    ∀ t u : meta_data_integer_table, (∀ r ∈ t, r.id ≠ id) →
      ps.foldl (fun acc p => replace_meta_data_integer acc id p.1 p.2)
          (t ++ u) =
        t ++ ps.foldl (fun acc p => replace_meta_data_integer acc id p.1 p.2)
          u := by
  induction ps with
  | nil => intro t u _; rfl
  | cons p ps ih =>
    intro t u h
    have hsplit : replace_meta_data_integer (t ++ u) id p.1 p.2 =
        t ++ replace_meta_data_integer u id p.1 p.2 := by
      unfold replace_meta_data_integer
      rw [List.filter_append]
      have ht : t.filter (fun r => !(r.id == id && r.typ == p.1)) = t := by
        rw [List.filter_eq_self]
        intro r hr
        simp [h r hr]
      rw [ht, List.append_assoc]
    show ps.foldl _ (replace_meta_data_integer (t ++ u) id p.1 p.2) = _
    rw [hsplit, ih t _ h]
    rfl

/-- Reading back a freshly created row yields the version projection of the
input. -/
theorem get_track_read_create (ver : engine_version) (x : track_row) :
    get_track_read ver (create_track_row ver x) = project_track ver x := by
  by_cases h18 : ver.gev version_1_18_0_fw
  · have h15 := gev_mono ver version_1_18_0_fw version_1_15_0 (by decide) h18
    have h71 := gev_mono ver version_1_18_0_fw version_1_7_1 (by decide) h18
    simp [get_track_read, create_track_row, project_track, h18, h15, h71]
  · by_cases h15 : ver.gev version_1_15_0
    · have h71 := gev_mono ver version_1_15_0 version_1_7_1 (by decide) h15
      simp [get_track_read, create_track_row, project_track, h18, h15, h71]
    · by_cases h71 : ver.gev version_1_7_1
      · simp [get_track_read, create_track_row, project_track, h18, h15, h71]
      · simp [get_track_read, create_track_row, project_track, h18, h15, h71]

/-- Reading back a freshly created row after an update yields the version
projection of the update payload: the stored row's unlisted columns are
NULL and remain so. -/
theorem get_track_read_update (ver : engine_version) (x y : track_row) :
    get_track_read ver (update_track_row ver (create_track_row ver x) y) =
      project_track ver y := by
  by_cases h18 : ver.gev version_1_18_0_fw
  · have h15 := gev_mono ver version_1_18_0_fw version_1_15_0 (by decide) h18
    have h71 := gev_mono ver version_1_18_0_fw version_1_7_1 (by decide) h18
    simp [get_track_read, create_track_row, update_track_row, project_track,
      h18, h15, h71]
  · by_cases h15 : ver.gev version_1_15_0
    · have h71 := gev_mono ver version_1_15_0 version_1_7_1 (by decide) h15
      simp [get_track_read, create_track_row, update_track_row,
        project_track, h18, h15, h71]
    · by_cases h71 : ver.gev version_1_7_1
      · simp [get_track_read, create_track_row, update_track_row,
          project_track, h18, h15, h71]
      · simp [get_track_read, create_track_row, update_track_row,
          project_track, h18, h15, h71]

/-- Folding the `get_track` callback from an already-found row errors as
soon as another matching row appears. -/
theorem foldl_track_some (ver : engine_version) (id : Int) (r : track_row) :
    ∀ rows : List (Int × track_row),
      rows.foldlM (get_track_step ver id) (some r) =
        if rows.any (fun p => p.1 == id) then
          Except.error (el_error.track_database_inconsistency
            "More than one track with the same id" id)
        else Except.ok (some r) := by
  intro rows
  induction rows with
  | nil => rfl
  | cons p rows ih =>
    rw [List.foldlM_cons, List.any_cons]
    by_cases h : p.1 == id
    · simp [get_track_step, h, Bind.bind, Except.bind]
    · simp only [get_track_step, h, if_neg, Bool.false_or, if_false,
        Bool.not_eq_true]
      show rows.foldlM (get_track_step ver id) (some r) = _
      rw [ih]

/-- The `get_track` row iteration, characterized by the list of matching
rows: none found, exactly one found, or more than one found. -/
theorem foldl_track_none (ver : engine_version) (id : Int) :
    ∀ rows : List (Int × track_row),
      rows.foldlM (get_track_step ver id) none =
        match rows.filter (fun p => p.1 == id) with
        | [] => Except.ok none
        | [p] => Except.ok (some (get_track_read ver p.2))
        | _ :: _ :: _ => Except.error (el_error.track_database_inconsistency
            "More than one track with the same id" id) := by
  intro rows
  induction rows with
  | nil => rfl
  | cons p rows ih =>
    rw [List.foldlM_cons, List.filter_cons]
    by_cases h : p.1 == id
    · simp only [get_track_step, h, if_true]
      show rows.foldlM (get_track_step ver id)
        (some (get_track_read ver p.2)) = _
      rw [foldl_track_some]
      cases hany : rows.any (fun q => q.1 == id) with
      | true =>
        rcases List.any_eq_true.mp hany with ⟨q, hq, hq2⟩
        rcases hf : rows.filter (fun q => q.1 == id) with _ | ⟨a, rest⟩
        · exfalso
          have hmem : q ∈ rows.filter (fun q => q.1 == id) :=
            List.mem_filter.mpr ⟨hq, hq2⟩
          rw [hf] at hmem
          simp at hmem
        · rw [hf]
          simp
      | false =>
        have hf : rows.filter (fun q => q.1 == id) = [] := by
          rw [List.filter_eq_nil_iff]
          intro a ha
          have := List.any_eq_false.mp hany a ha
          simpa using this
        rw [hf]
        simp
    · simp only [get_track_step, h, if_neg, if_false, Bool.not_eq_true]
      show rows.foldlM (get_track_step ver id) none = _
      rw [ih]

/-- The `get_performance_data` row iteration returns nothing when no stored
row carries the requested id. -/
theorem foldl_perf_fresh (ver : engine_version) (id : Int) :
    ∀ rows : List performance_data_row, (∀ r ∈ rows, r.id ≠ id) →
      rows.foldlM (get_performance_data_step ver id) none =
        Except.ok none := by
  intro rows
  induction rows with
  | nil => intro _; rfl
  | cons r rows ih =>
    intro h
    rw [List.foldlM_cons]
    have hr : (r.id == id) = false := by simp [h r (by simp)]
    simp only [get_performance_data_step, hr, if_false, Bool.false_eq_true]
    show rows.foldlM (get_performance_data_step ver id) none = _
    exact ih (fun a ha => h a (List.mem_cons_of_mem r ha))

/-- Claim C1, counterexample: the claim says a 1.18.0 library whose
`Track.isExternalTrack` column is declared `NUMERIC` is detected as the
firmware variant; on `numeric_bools_db` the code returns the desktop
variant `v_1_18_0_ep`, which differs from `v_1_18_0_fw`. -/
theorem get_version_numeric_is_not_fw :
    get_version numeric_bools_db = .ok .v_1_18_0_ep ∧
      engine_version.v_1_18_0_ep ≠ engine_version.v_1_18_0_fw :=
  ⟨rfl, by decide⟩

/-- Claim C1 (corrected): for every opened 1.18.0 library (both stores have
an `Information` table and the music store states version (1,18,0)),
version detection probes the declared type of `Track.isExternalTrack` and
returns the desktop variant tag `1.18.0-ep` when that type is `NUMERIC` and
the firmware variant tag `1.18.0-fw` otherwise; two libraries identical
except for that column's declared type (`NUMERIC` vs `INTEGER`) therefore
yield the two distinct variant tags. -/
theorem get_version_variant_detection (db db2 : attached_db)
    (hm : (db.music_master.filter (fun n => n == "Information")).length = 1)
    (hp : (db.perfdata_master.filter (fun n => n == "Information")).length = 1)
    (hv : db.music_information = ⟨1, 18, 0⟩)
    (hm2 : (db2.music_master.filter (fun n => n == "Information")).length = 1)
    (hp2 : (db2.perfdata_master.filter (fun n => n == "Information")).length = 1)
    (hv2 : db2.music_information = ⟨1, 18, 0⟩)
    (hnum : get_column_type db.music_track_cols "isExternalTrack" =
      some "NUMERIC")
    (hint : get_column_type db2.music_track_cols "isExternalTrack" ≠
      some "NUMERIC") :
    get_version db = .ok .v_1_18_0_ep ∧
      get_version db2 = .ok .v_1_18_0_fw ∧
      get_version db ≠ get_version db2 := by
  have hdb : get_version db = .ok .v_1_18_0_ep := by
    unfold get_version
    simp [hm, hp, hv, hnum]
  have hdb2 : get_version db2 = .ok .v_1_18_0_fw := by
    unfold get_version
    simp [hm2, hp2, hv2, hint]
  exact ⟨hdb, hdb2, by simp [hdb, hdb2]⟩

/-- Claim C1, witness for the corrected theorem at the two concrete
libraries `numeric_bools_db` and `integer_bools_db`. -/
theorem get_version_variant_detection_witness :
    get_version numeric_bools_db = .ok .v_1_18_0_ep ∧
      get_version integer_bools_db = .ok .v_1_18_0_fw ∧
      get_version numeric_bools_db ≠ get_version integer_bools_db :=
  get_version_variant_detection numeric_bools_db integer_bools_db
    (by decide) (by decide) (by decide) (by decide) (by decide) (by decide)
    (by decide) (by decide)

/-- Claim C2 (code bug): the claim — and the code's own error message —
say that when the music store's version tuple differs from the performance
store's, detection must fail with `DatabaseInconsistency`.  But the code
reads both tuples from `music.Information` (the second query names the
music store again), so the comparison always passes: on a library stating
(1,13,0) in the music store and (1,13,1) in the performance store,
`get_version` returns (1,13,0) without error. -/
theorem get_version_ignores_perfdata_version :
    mismatched_versions_db.music_information ≠
        mismatched_versions_db.perfdata_information ∧
      get_version mismatched_versions_db = .ok (.exact ⟨1, 13, 0⟩) :=
  ⟨by decide, rfl⟩

/-- Claim C3, counterexample: with all ten named fields supplied, the bulk
read after the canonical bulk write returns 12 rows, not 15 — the reader's
`text IS NOT NULL` filter drops the three unknown slots written as explicit
nulls, so no read row ever shows a null. -/
theorem get_all_after_bulk_is_twelve :
    (get_all_meta_data
        (set_meta_data [] 1 (some "T") (some "A") (some "L") (some "G")
          (some "C") (some "P") (some "O") (some "04:00") (some "0")
          (some "mp3")) 1).length = 12 ∧ (12 : Nat) ≠ 15 :=
  ⟨rfl, by decide⟩

/-- Claim C3 (corrected): for every track id with no prior metadata rows,
the bulk canonical write stores exactly the 15 canonical rows — literal "1"
in the unknown 15 and 16 slots and explicit nulls in the unknown 8, 9 and
17 slots — and the bulk read returns exactly the stored rows whose text is
non-null (the supplied named fields plus the two "1" slots), and no further
rows. -/
theorem set_meta_data_canonical (t : meta_data_table) (id : Int)
    (title artist album genre comment publisher composer duration_mm_ss
      ever_played file_extension : Option String)
    (hfresh : ∀ r ∈ t, r.id ≠ id) :
    (set_meta_data t id title artist album genre comment publisher composer
          duration_mm_ss ever_played file_extension).filter
        (fun r => r.id == id) =
      canonical_rows id title artist album genre comment publisher composer
        duration_mm_ss ever_played file_extension ∧
    (canonical_rows id title artist album genre comment publisher composer
        duration_mm_ss ever_played file_extension).length = 15 ∧
    get_all_meta_data (set_meta_data t id title artist album genre comment
        publisher composer duration_mm_ss ever_played file_extension) id =
      (canonical_rows id title artist album genre comment publisher composer
          duration_mm_ss ever_played file_extension).filter
        (fun r => r.text.isSome) := by
  have hsplit := set_meta_data_split t id title artist album genre comment
    publisher composer duration_mm_ss ever_played file_extension hfresh
  rw [set_meta_data_on_empty] at hsplit
  have ht : t.filter (fun r => r.id == id) = [] := by
    rw [List.filter_eq_nil_iff]
    intro r hr
    simp [hfresh r hr]
  refine ⟨?_, by simp [canonical_rows], ?_⟩
  · rw [hsplit, List.filter_append, ht]
    simp [canonical_rows]
  · have ht2 : t.filter (fun r => r.id == id && r.text.isSome) = [] := by
      rw [List.filter_eq_nil_iff]
      intro r hr
      simp [hfresh r hr]
    rw [get_all_meta_data, hsplit, List.filter_append, ht2]
    rw [List.nil_append]
    apply List.filter_congr
    intro r hr
    simp only [canonical_rows, List.mem_cons, List.not_mem_nil, or_false]
      at hr
    rcases hr with rfl | rfl | rfl | rfl | rfl | rfl | rfl | rfl | rfl | rfl |
      rfl | rfl | rfl | rfl | rfl <;> simp

/-- Claim C3, witness: the corrected theorem applied to an empty table and
track id 1 with all ten named fields supplied. -/
theorem set_meta_data_canonical_witness :
    (∀ r ∈ ([] : meta_data_table), r.id ≠ (1 : Int)) ∧
    ((set_meta_data [] 1 (some "T") (some "A") (some "L") (some "G")
          (some "C") (some "P") (some "O") (some "04:00") (some "0")
          (some "mp3")).filter (fun r => r.id == 1) =
      canonical_rows 1 (some "T") (some "A") (some "L") (some "G") (some "C")
        (some "P") (some "O") (some "04:00") (some "0") (some "mp3") ∧
    (canonical_rows 1 (some "T") (some "A") (some "L") (some "G") (some "C")
        (some "P") (some "O") (some "04:00") (some "0")
        (some "mp3")).length = 15 ∧
    get_all_meta_data (set_meta_data [] 1 (some "T") (some "A") (some "L")
        (some "G") (some "C") (some "P") (some "O") (some "04:00") (some "0")
        (some "mp3")) 1 =
      (canonical_rows 1 (some "T") (some "A") (some "L") (some "G")
          (some "C") (some "P") (some "O") (some "04:00") (some "0")
          (some "mp3")).filter (fun r => r.text.isSome)) :=
  ⟨by simp,
    set_meta_data_canonical [] 1 (some "T") (some "A") (some "L") (some "G")
      (some "C") (some "P") (some "O") (some "04:00") (some "0") (some "mp3")
      (by simp)⟩

/-- Claim C4 (confirmed): for every store state and id, `get_track` raises
`track_deleted` when no `Track` row matches, returns the (version-read) row
when exactly one matches, and raises `track_database_inconsistency` when
more than one matches. -/
theorem get_track_cases (s : el_storage) (id : Int) :
    (s.tracks.filter (fun p => p.1 == id) = [] →
      get_track s id = .error (.track_deleted id)) ∧
    (∀ p, s.tracks.filter (fun q => q.1 == id) = [p] →
      get_track s id = .ok (get_track_read s.version p.2)) ∧
    (∀ p q rest, s.tracks.filter (fun w => w.1 == id) = p :: q :: rest →
      get_track s id = .error (.track_database_inconsistency
        "More than one track with the same id" id)) := by
  refine ⟨?_, ?_, ?_⟩
  · intro hf
    unfold get_track
    rw [foldl_track_none, hf]
    rfl
  · intro p hf
    unfold get_track
    rw [foldl_track_none, hf]
    rfl
  · intro p q rest hf
    unfold get_track
    rw [foldl_track_none, hf]
    rfl

/-- Claim C4, witness: the three cases at concrete stores — an empty track
table, a single row with id 5, and a duplicated id 5. -/
theorem get_track_cases_witness :
    get_track ⟨version_1_15_0, [], 1, []⟩ 5 =
      .error (.track_deleted 5) ∧
    get_track ⟨version_1_15_0, [(5, sample_track_a)], 6, []⟩ 5 =
      .ok (get_track_read version_1_15_0 sample_track_a) ∧
    get_track ⟨version_1_15_0, [(5, sample_track_a), (5, sample_track_a)], 6,
        []⟩ 5 =
      .error (.track_database_inconsistency
        "More than one track with the same id" 5) := by
  refine ⟨?_, ?_, ?_⟩
  · exact (get_track_cases ⟨version_1_15_0, [], 1, []⟩ 5).1 rfl
  · exact (get_track_cases ⟨version_1_15_0, [(5, sample_track_a)], 6, []⟩
      5).2.1 (5, sample_track_a) (by simp)
  · exact (get_track_cases ⟨version_1_15_0,
      [(5, sample_track_a), (5, sample_track_a)], 6, []⟩ 5).2.2
      (5, sample_track_a) (5, sample_track_a) [] (by simp)

/-- Claim C5 (confirmed): for every track id with no `PerformanceData` row,
`get_performance_data` returns — without error — the synthesized default
row carrying that id: has-flags and analysis flags zero, every blob field
at its default value. -/
theorem get_performance_data_absent (s : el_storage) (id : Int)
    (habsent : ∀ r ∈ s.performance_data, r.id ≠ id) :
    get_performance_data s id = .ok (default_performance_data_row id) ∧
      (default_performance_data_row id).id = id ∧
      (default_performance_data_row id).is_analyzed = 0 ∧
      (default_performance_data_row id).is_rendered = 0 ∧
      (default_performance_data_row id).has_serato_values = 0 ∧
      (default_performance_data_row id).has_rekordbox_values = 0 ∧
      (default_performance_data_row id).has_traktor_values = 0 ∧
      (default_performance_data_row id).trackData = track_data.default ∧
      (default_performance_data_row id).highResWaveformData =
        high_res_waveform_data.default ∧
      (default_performance_data_row id).overviewWaveformData =
        overview_waveform_data.default ∧
      (default_performance_data_row id).beatData = beat_data.default ∧
      (default_performance_data_row id).quickCuesData =
        quick_cues_data.default ∧
      (default_performance_data_row id).loopsData = loops_data.default := by
  refine ⟨?_, rfl, rfl, rfl, rfl, rfl, rfl, rfl, rfl, rfl, rfl, rfl, rfl⟩
  unfold get_performance_data
  rw [foldl_perf_fresh s.version id s.performance_data habsent]
  rfl

/-- Claim C5, witness: a fresh library holding performance data only for
track 1 returns the default row for track 999 without error. -/
theorem get_performance_data_absent_witness :
    (∀ r ∈ (⟨version_1_15_0, [], 1,
        [default_performance_data_row 1]⟩ : el_storage).performance_data,
      r.id ≠ (999 : Int)) ∧
    get_performance_data
        ⟨version_1_15_0, [], 1, [default_performance_data_row 1]⟩ 999 =
      .ok (default_performance_data_row 999) := by
  have h : ∀ r ∈ (⟨version_1_15_0, [], 1,
      [default_performance_data_row 1]⟩ : el_storage).performance_data,
      r.id ≠ (999 : Int) := by
    intro r hr
    simp only [List.mem_singleton] at hr
    rw [hr]
    decide
  exact ⟨h, (get_performance_data_absent _ 999 h).1⟩

/-- Claim C6 (confirmed): for a track with no prior integer metadata rows,
the bulk canonical integer write appends exactly 12 (id, type, value) rows
whose type tags appear in the insertion order 4, 5, 1, 2, 3, 6, 8, 7, 9,
10, 11, 12, with the constant integer 1 as the value of unknown slots 11
and 12. -/
theorem set_meta_data_integer_canonical (t : meta_data_integer_table)
    (id : Int)
    (musical_key rating last_played_timestamp last_modified_timestamp
      last_accessed_timestamp last_play_hash : Option Int)
    (hfresh : ∀ r ∈ t, r.id ≠ id) :
    set_meta_data_integer t id musical_key rating last_played_timestamp
        last_modified_timestamp last_accessed_timestamp last_play_hash =
      t ++ canonical_integer_rows id musical_key rating last_played_timestamp
        last_modified_timestamp last_accessed_timestamp last_play_hash ∧
    (canonical_integer_rows id musical_key rating last_played_timestamp
        last_modified_timestamp last_accessed_timestamp
        last_play_hash).map (fun r => r.typ) =
      [4, 5, 1, 2, 3, 6, 8, 7, 9, 10, 11, 12] ∧
    (canonical_integer_rows id musical_key rating last_played_timestamp
        last_modified_timestamp last_accessed_timestamp
        last_play_hash).length = 12 := by
  have hempty : set_meta_data_integer [] id musical_key rating
      last_played_timestamp last_modified_timestamp last_accessed_timestamp
      last_play_hash =
      canonical_integer_rows id musical_key rating last_played_timestamp
        last_modified_timestamp last_accessed_timestamp last_play_hash := by
    simp [set_meta_data_integer, replace_meta_data_integer,
      canonical_integer_rows, mdi_musical_key, mdi_rating,
      mdi_last_played_ts, mdi_last_modified_ts, mdi_last_accessed_ts,
      mdi_unknown_6, mdi_unknown_7, mdi_unknown_8, mdi_unknown_9,
      mdi_last_play_hash, mdi_unknown_11, mdi_unknown_12]
  refine ⟨?_,
    by
      simp [canonical_integer_rows, mdi_musical_key, mdi_rating,
        mdi_last_played_ts, mdi_last_modified_ts, mdi_last_accessed_ts,
        mdi_unknown_6, mdi_unknown_7, mdi_unknown_8, mdi_unknown_9,
        mdi_last_play_hash, mdi_unknown_11, mdi_unknown_12],
    by simp [canonical_integer_rows]⟩
  have hsplit : set_meta_data_integer t id musical_key rating
      last_played_timestamp last_modified_timestamp last_accessed_timestamp
      last_play_hash =
      t ++ set_meta_data_integer [] id musical_key rating
        last_played_timestamp last_modified_timestamp last_accessed_timestamp
        last_play_hash := by
    conv_lhs => rw [show t = t ++ [] from (List.append_nil t).symm]
    exact fold_replace_integer_fresh id _ t [] hfresh
  rw [hsplit, hempty]

/-- Claim C6, witness: the theorem applied to an empty table and track id 7
with concrete field values. -/
theorem set_meta_data_integer_canonical_witness :
    (∀ r ∈ ([] : meta_data_integer_table), r.id ≠ (7 : Int)) ∧
    (set_meta_data_integer [] 7 (some 21) (some 5) (some 1700000000) none
        none (some 99) =
      [] ++ canonical_integer_rows 7 (some 21) (some 5) (some 1700000000)
        none none (some 99) ∧
    (canonical_integer_rows 7 (some 21) (some 5) (some 1700000000) none none
        (some 99)).map (fun r => r.typ) =
      [4, 5, 1, 2, 3, 6, 8, 7, 9, 10, 11, 12] ∧
    (canonical_integer_rows 7 (some 21) (some 5) (some 1700000000) none none
        (some 99)).length = 12) :=
  ⟨by simp,
    set_meta_data_integer_canonical [] 7 (some 21) (some 5)
      (some 1700000000) none none (some 99) (by simp)⟩

/-- Claim C8 (confirmed): `create_track` binds only the fields of the
active version, `get_track` reads only those fields, and `update_track`
sets only those fields — so reading a created row yields the input
projected onto the active version's fields, and reading after an update
yields the update payload so projected (the supplied values of newer
fields being ignored). -/
theorem track_round_trip (s : el_storage) (x y : track_row)
    (hfresh : ∀ p ∈ s.tracks, p.1 ≠ s.next_track_id) :
    get_track (create_track s x).2 (create_track s x).1 =
      .ok (project_track s.version x) ∧
    get_track (update_track (create_track s x).2 (create_track s x).1 y)
        (create_track s x).1 = .ok (project_track s.version y) := by
  have hfilter0 : s.tracks.filter (fun p => p.1 == s.next_track_id) = [] := by
    rw [List.filter_eq_nil_iff]
    intro p hp
    simp [hfresh p hp]
  constructor
  · unfold get_track
    simp only [create_track]
    rw [foldl_track_none, List.filter_append, hfilter0]
    simp only [List.nil_append, List.filter_cons, beq_self_eq_true, if_true,
      List.filter_nil]
    rw [get_track_read_create]
    rfl
  · unfold get_track update_track
    simp only [create_track]
    have hmap : (s.tracks ++
        [(s.next_track_id, create_track_row s.version x)]).map
          (fun p => if p.1 == s.next_track_id then
            (p.1, update_track_row s.version p.2 y) else p) =
        s.tracks ++ [(s.next_track_id,
          update_track_row s.version (create_track_row s.version x) y)] := by
      rw [List.map_append]
      congr 1
      · conv_rhs => rw [← List.map_id s.tracks]
        apply List.map_congr_left
        intro p hp
        simp [hfresh p hp]
      · simp
    rw [hmap, foldl_track_none, List.filter_append, hfilter0]
    simp only [List.nil_append, List.filter_cons, beq_self_eq_true, if_true,
      List.filter_nil]
    rw [get_track_read_update]
    rfl

/-- Claim C8, witness: create-then-get and update-then-get at version
1.15.0 on an empty store, with concrete payloads whose 1.18.0-only field is
projected away. -/
theorem track_round_trip_witness :
    (∀ p ∈ (⟨version_1_15_0, [], 1, []⟩ : el_storage).tracks,
      p.1 ≠ (⟨version_1_15_0, [], 1, []⟩ : el_storage).next_track_id) ∧
    (get_track (create_track ⟨version_1_15_0, [], 1, []⟩ sample_track_a).2
        (create_track ⟨version_1_15_0, [], 1, []⟩ sample_track_a).1 =
      .ok (project_track version_1_15_0 sample_track_a) ∧
    get_track (update_track
        (create_track ⟨version_1_15_0, [], 1, []⟩ sample_track_a).2
        (create_track ⟨version_1_15_0, [], 1, []⟩ sample_track_a).1
        sample_track_b)
        (create_track ⟨version_1_15_0, [], 1, []⟩ sample_track_a).1 =
      .ok (project_track version_1_15_0 sample_track_b)) :=
  ⟨by simp,
    track_round_trip ⟨version_1_15_0, [], 1, []⟩ sample_track_a
      sample_track_b (by simp)⟩

/-- Claim C10 (confirmed): writing a null content through the per-(id,type)
`set_meta_data` stores a row whose text is NULL rather than deleting it —
the table holds exactly one (id, type) row, with null text — yet
`get_meta_data` then returns no value and `get_all_meta_data` omits the
row, because both readers filter on `text IS NOT NULL`. -/
theorem set_meta_data_null_row (t : meta_data_table) (id typ : Int) :
    (set_meta_data_one t id typ none).filter
        (fun r => r.id == id && r.typ == typ) = [⟨id, typ, none⟩] ∧
      get_meta_data (set_meta_data_one t id typ none) id typ = .ok none ∧
      (get_all_meta_data (set_meta_data_one t id typ none) id).all
          (fun r => !(r.typ == typ)) = true := by
  refine ⟨?_, ?_, ?_⟩
  · rw [set_meta_data_one, replace_meta_data, List.filter_append,
      filter_of_filter_not t _ _ (fun a ha => ha)]
    simp
  · rw [get_meta_data.eq_def, set_meta_data_one, replace_meta_data]
    rw [List.filter_append]
    rw [filter_of_filter_not t _ _ ?side]
    case side =>
      intro a ha
      simp only [Bool.and_eq_true] at ha ⊢
      exact ha.1
    simp
  · rw [get_all_meta_data, set_meta_data_one, replace_meta_data,
      List.filter_append]
    simp only [List.all_eq_true]
    intro r hr
    simp only [List.mem_append, List.mem_filter, List.mem_singleton] at hr
    rcases hr with ⟨⟨-, hnot⟩, hcond⟩ | ⟨rfl, hcond⟩
    · simp only [Bool.and_eq_true] at hcond
      cases h2 : (r.typ == typ) with
      | false => simp [h2]
      | true => simp [hcond.1, h2] at hnot
    · simp only [Bool.and_eq_true] at hcond
      exact absurd hcond.2 (by simp)

/-- Equivalence under the `master_list_entry` comparator is equality of the
item names. -/
theorem master_list_entry_equiv (x y : master_list_entry) :
    (!(master_list_entry.ltb x y) && !(master_list_entry.ltb y x)) =
      (x.item_name == y.item_name) := by
  unfold master_list_entry.ltb
  by_cases h : x.item_name = y.item_name
  · simp [h]
  · rcases lt_or_gt_of_ne h with h2 | h2 <;> simp [h, h2]

/-- Equivalence under the `table_info_entry` comparator is equality of the
column names. -/
theorem table_info_entry_equiv (x y : table_info_entry) :
    (!(table_info_entry.ltb x y) && !(table_info_entry.ltb y x)) =
      (x.col_name == y.col_name) := by
  unfold table_info_entry.ltb
  by_cases h : x.col_name = y.col_name
  · simp [h]
  · rcases lt_or_gt_of_ne h with h2 | h2 <;> simp [h, h2]

/-- Equivalence under the `index_list_entry` comparator is equality of the
index names. -/
theorem index_list_entry_equiv (x y : index_list_entry) :
    (!(index_list_entry.ltb x y) && !(index_list_entry.ltb y x)) =
      (x.index_name == y.index_name) := by
  unfold index_list_entry.ltb
  by_cases h : x.index_name = y.index_name
  · simp [h]
  · rcases lt_or_gt_of_ne h with h2 | h2 <;> simp [h, h2]

/-- Equivalence under the `index_info_entry` comparator is equality of the
column ranks. -/
theorem index_info_entry_equiv (x y : index_info_entry) :
    (!(index_info_entry.ltb x y) && !(index_info_entry.ltb y x)) =
      (x.col_index_id == y.col_index_id) := by
  unfold index_info_entry.ltb
  by_cases h : x.col_index_id = y.col_index_id
  · simp [h]
  · rcases lt_or_gt_of_ne h with h2 | h2 <;> simp [h, h2]

/-- Inserting a query result list into a comparator-keyed set, element by
element: for every key, the retained entries are exactly the first queried
entry with that key (if any). -/
theorem foldl_set_insert_filter {α K : Type} [BEq K] [LawfulBEq K]
    (ltb : α → α → Bool) (key : α → K)
    (hequiv : ∀ x y, (!(ltb x y) && !(ltb y x)) = (key x == key y)) :
    ∀ (xs acc : List α) (k : K),
      (xs.foldl (set_insert ltb) acc).filter (fun y => key y == k) =
        acc.filter (fun y => key y == k) ++
          (if acc.any (fun y => key y == k) then []
           else (xs.find? (fun y => key y == k)).toList) := by
  intro xs
  induction xs with
  | nil =>
    intro acc k
    cases h : acc.any (fun y => key y == k) <;> simp [h]
  | cons x xs ih =>
    intro acc k
    rw [List.foldl_cons]
    have hins : set_insert ltb acc x =
        if acc.any (fun y => key x == key y) then acc
        else acc ++ [x] := by
      unfold set_insert
      rw [show (fun y => !(ltb x y) && !(ltb y x)) =
        (fun y => key x == key y) from funext (fun y => hequiv x y)]
    rw [hins]
    by_cases hxk : key x = k
    · have hcong : (fun y => key x == key y) =
          (fun y => key y == k) := by
        funext y
        rw [hxk]
        simp [eq_comm]
      rw [hcong]
      by_cases hacc : acc.any (fun y => key y == k)
      · rw [if_pos hacc, ih acc k, if_pos hacc, if_pos hacc]
      · rw [if_neg hacc, ih (acc ++ [x]) k]
        have hany2 : (acc ++ [x]).any (fun y => key y == k) = true := by
          rw [List.any_append]
          simp [hxk]
        rw [if_pos hany2, if_neg hacc]
        rw [List.filter_append]
        have hfind : (x :: xs).find? (fun y => key y == k) = some x := by
          rw [List.find?_cons_of_pos]
          simp [hxk]
        rw [hfind]
        simp [hxk]
    · by_cases hacc : acc.any (fun y => key x == key y)
      · rw [if_pos hacc, ih acc k]
        have hfind : (x :: xs).find? (fun y => key y == k) =
            xs.find? (fun y => key y == k) := by
          rw [List.find?_cons_of_neg]
          simp [hxk]
        rw [hfind]
      · rw [if_neg hacc, ih (acc ++ [x]) k]
        have hfx : (acc ++ [x]).filter (fun y => key y == k) =
            acc.filter (fun y => key y == k) := by
          rw [List.filter_append]
          simp [hxk]
        have hax : (acc ++ [x]).any (fun y => key y == k) =
            acc.any (fun y => key y == k) := by
          rw [List.any_append]
          simp [hxk]
        rw [hfx, hax]
        have hfind : (x :: xs).find? (fun y => key y == k) =
            xs.find? (fun y => key y == k) := by
          rw [List.find?_cons_of_neg]
          simp [hxk]
        rw [hfind]

/-- Claim C9 (confirmed): every catalog snapshot collection built during
validation holds at most one entry per ordering key — item name for master
entries, column name for columns, index name for indices, column rank for
index columns — and when the underlying query yields several entries with
equal keys, exactly the first inserted one is retained and the rest are
silently discarded. -/
theorem catalog_sets_keep_first :
    (∀ (xs : List master_list_entry) (k : String),
      (set_of_list master_list_entry.ltb xs).filter
          (fun y => y.item_name == k) =
        (xs.find? (fun y => y.item_name == k)).toList ∧
      ((set_of_list master_list_entry.ltb xs).filter
          (fun y => y.item_name == k)).length ≤ 1) ∧
    (∀ (xs : List table_info_entry) (k : String),
      (set_of_list table_info_entry.ltb xs).filter
          (fun y => y.col_name == k) =
        (xs.find? (fun y => y.col_name == k)).toList ∧
      ((set_of_list table_info_entry.ltb xs).filter
          (fun y => y.col_name == k)).length ≤ 1) ∧
    (∀ (xs : List index_list_entry) (k : String),
      (set_of_list index_list_entry.ltb xs).filter
          (fun y => y.index_name == k) =
        (xs.find? (fun y => y.index_name == k)).toList ∧
      ((set_of_list index_list_entry.ltb xs).filter
          (fun y => y.index_name == k)).length ≤ 1) ∧
    (∀ (xs : List index_info_entry) (k : Int),
      (set_of_list index_info_entry.ltb xs).filter
          (fun y => y.col_index_id == k) =
        (xs.find? (fun y => y.col_index_id == k)).toList ∧
      ((set_of_list index_info_entry.ltb xs).filter
          (fun y => y.col_index_id == k)).length ≤ 1) := by
  refine ⟨fun xs k => ?_, fun xs k => ?_, fun xs k => ?_, fun xs k => ?_⟩
  · have h : (set_of_list master_list_entry.ltb xs).filter
        (fun y => y.item_name == k) =
        (xs.find? (fun y => y.item_name == k)).toList := by
      simpa [set_of_list] using foldl_set_insert_filter
        master_list_entry.ltb (fun e => e.item_name)
        master_list_entry_equiv xs [] k
    refine ⟨h, ?_⟩
    rw [h]
    cases xs.find? (fun y => y.item_name == k) <;> simp
  · have h : (set_of_list table_info_entry.ltb xs).filter
        (fun y => y.col_name == k) =
        (xs.find? (fun y => y.col_name == k)).toList := by
      simpa [set_of_list] using foldl_set_insert_filter
        table_info_entry.ltb (fun e => e.col_name)
        table_info_entry_equiv xs [] k
    refine ⟨h, ?_⟩
    rw [h]
    cases xs.find? (fun y => y.col_name == k) <;> simp
  · have h : (set_of_list index_list_entry.ltb xs).filter
        (fun y => y.index_name == k) =
        (xs.find? (fun y => y.index_name == k)).toList := by
      simpa [set_of_list] using foldl_set_insert_filter
        index_list_entry.ltb (fun e => e.index_name)
        index_list_entry_equiv xs [] k
    refine ⟨h, ?_⟩
    rw [h]
    cases xs.find? (fun y => y.index_name == k) <;> simp
  · have h : (set_of_list index_info_entry.ltb xs).filter
        (fun y => y.col_index_id == k) =
        (xs.find? (fun y => y.col_index_id == k)).toList := by
      simpa [set_of_list] using foldl_set_insert_filter
        index_info_entry.ltb (fun e => e.col_index_id)
        index_info_entry_equiv xs [] k
    refine ⟨h, ?_⟩
    rw [h]
    cases xs.find? (fun y => y.col_index_id == k) <;> simp

/-- Claim C7 (confirmed): every divergence kind the lockstep walk can meet
raises `database_inconsistency` with a message naming the diverging
object: a missing entry, an entry in wrong order, a column with wrong
type, wrong nullability, wrong default value or wrong primary-key
membership, an index with wrong uniqueness, wrong creation method or wrong
partiality, an index column with wrong rank, and extra entries beyond the
reference list.  The hypotheses of the later checks state that the earlier
checks passed, so each conjunct exhibits the first mismatch. -/
theorem validate_detects_divergences :
    (∀ db_name item_type item_name table_name,
      validate_master [] db_name item_type item_name table_name =
        .error (.database_inconsistency
          ("Item " ++ item_name ++ " of type " ++ item_type ++
            " (relating to table " ++ table_name ++ ") missing from DB " ++
            db_name))) ∧
    (∀ (e : master_list_entry) rest db_name item_type item_name table_name,
      e.item_name ≠ item_name →
      validate_master (e :: rest) db_name item_type item_name table_name =
        .error (.database_inconsistency
          ("Item " ++ e.item_name ++ " of type " ++ item_type ++
            " (relating to table " ++ e.table_name ++ ") on " ++ db_name ++
            " in wrong order, expected " ++ item_name ++
            " (relating to table " ++ table_name ++ ")"))) ∧
    (∀ col_name col_type nullable default_value part_of_pk,
      validate_table_info [] col_name col_type nullable default_value
          part_of_pk =
        .error (.database_inconsistency
          ("Column " ++ col_name ++ " missing"))) ∧
    (∀ (e : table_info_entry) rest col_name col_type nullable default_value
        part_of_pk,
      e.col_name ≠ col_name →
      validate_table_info (e :: rest) col_name col_type nullable
          default_value part_of_pk =
        .error (.database_inconsistency
          ("Column " ++ e.col_name ++ " on " ++ e.table_name ++
            " in wrong order, expected " ++ col_name))) ∧
    (∀ (e : table_info_entry) rest col_name col_type nullable default_value
        part_of_pk,
      e.col_name = col_name → e.col_type ≠ col_type →
      validate_table_info (e :: rest) col_name col_type nullable
          default_value part_of_pk =
        .error (.database_inconsistency
          ("Column " ++ col_name ++ " on " ++ e.table_name ++
            " has wrong type: " ++ e.col_type ++ ", expected " ++
            col_type))) ∧
    (∀ (e : table_info_entry) rest col_name col_type nullable default_value
        part_of_pk,
      e.col_name = col_name → e.col_type = col_type →
      e.nullable ≠ nullable →
      validate_table_info (e :: rest) col_name col_type nullable
          default_value part_of_pk =
        .error (.database_inconsistency
          ("Column " ++ col_name ++ " on " ++ e.table_name ++
            " has wrong nullability: " ++ toString e.nullable))) ∧
    (∀ (e : table_info_entry) rest col_name col_type nullable default_value
        part_of_pk,
      e.col_name = col_name → e.col_type = col_type →
      e.nullable = nullable → e.default_value ≠ default_value →
      validate_table_info (e :: rest) col_name col_type nullable
          default_value part_of_pk =
        .error (.database_inconsistency
          ("Column " ++ col_name ++ " on " ++ e.table_name ++
            " has wrong default value: \"" ++ e.default_value ++
            "\", expected \"" ++ default_value ++ "\""))) ∧
    (∀ (e : table_info_entry) rest col_name col_type nullable default_value
        part_of_pk,
      e.col_name = col_name → e.col_type = col_type →
      e.nullable = nullable → e.default_value = default_value →
      e.part_of_pk ≠ part_of_pk →
      validate_table_info (e :: rest) col_name col_type nullable
          default_value part_of_pk =
        .error (.database_inconsistency
          ("Column " ++ col_name ++ " on " ++ e.table_name ++
            " has wrong PK membership: " ++ toString e.part_of_pk))) ∧
    (∀ index_name unique creation_method partiality,
      validate_index_list [] index_name unique creation_method partiality =
        .error (.database_inconsistency
          ("Index " ++ index_name ++ " missing"))) ∧
    (∀ (e : index_list_entry) rest index_name unique creation_method
        partiality,
      e.index_name ≠ index_name →
      validate_index_list (e :: rest) index_name unique creation_method
          partiality =
        .error (.database_inconsistency
          ("Index " ++ e.index_name ++ " on " ++ e.table_name ++
            " in wrong order, expected " ++ index_name))) ∧
    (∀ (e : index_list_entry) rest index_name unique creation_method
        partiality,
      e.index_name = index_name → e.unique ≠ unique →
      validate_index_list (e :: rest) index_name unique creation_method
          partiality =
        .error (.database_inconsistency
          ("Index " ++ index_name ++ " on " ++ e.table_name ++
            " has wrong uniqueness: " ++ toString e.unique))) ∧
    (∀ (e : index_list_entry) rest index_name unique creation_method
        partiality,
      e.index_name = index_name → e.unique = unique →
      e.creation_method ≠ creation_method →
      validate_index_list (e :: rest) index_name unique creation_method
          partiality =
        .error (.database_inconsistency
          ("Index " ++ index_name ++ " on " ++ e.table_name ++
            " has wrong creation method: \"" ++ e.creation_method ++
            "\""))) ∧
    (∀ (e : index_list_entry) rest index_name unique creation_method
        partiality,
      e.index_name = index_name → e.unique = unique →
      e.creation_method = creation_method → e.partiality ≠ partiality →
      validate_index_list (e :: rest) index_name unique creation_method
          partiality =
        .error (.database_inconsistency
          ("Index " ++ index_name ++ " on " ++ e.table_name ++
            " has wrong \"partiality\": " ++ toString e.partiality))) ∧
    (∀ col_index_id col_name,
      validate_index_info [] col_index_id col_name =
        .error (.database_inconsistency
          ("Col " ++ col_name ++ " missing from index"))) ∧
    (∀ (e : index_info_entry) rest col_index_id col_name,
      e.col_index_id ≠ col_index_id →
      validate_index_info (e :: rest) col_index_id col_name =
        .error (.database_inconsistency
          ("Col " ++ col_name ++ " on " ++ e.index_name ++
            " has wrong rank within the index: " ++
            toString e.col_index_id))) ∧
    (∀ (e : index_info_entry) rest col_index_id col_name,
      e.col_index_id = col_index_id → e.col_name ≠ col_name →
      validate_index_info (e :: rest) col_index_id col_name =
        .error (.database_inconsistency
          ("Col " ++ e.col_name ++ " on " ++ e.index_name ++
            " in wrong order, expected " ++ col_name))) ∧
    (∀ (α : Type) (x : α) (rest : List α) validation_type item,
      validate_no_more (x :: rest) validation_type item =
        .error (.database_inconsistency
          (validation_type ++ " for " ++ item ++
            " has more entries than expected"))) := by
  refine ⟨fun a b c d => rfl, ?_, fun a b c d e => rfl, ?_, ?_, ?_, ?_, ?_,
    fun a b c d => rfl, ?_, ?_, ?_, ?_, fun a b => rfl, ?_, ?_,
    fun a x r b c => rfl⟩
  · intro e rest a b c d h
    simp [validate_master, h]
  · intro e rest a b c d f h
    simp [validate_table_info, h]
  · intro e rest a b c d f h1 h2
    simp [validate_table_info, h1, h2]
  · intro e rest a b c d f h1 h2 h3
    simp [validate_table_info, h1, h2, h3]
  · intro e rest a b c d f h1 h2 h3 h4
    simp [validate_table_info, h1, h2, h3, h4]
  · intro e rest a b c d f h1 h2 h3 h4 h5
    simp [validate_table_info, h1, h2, h3, h4, h5]
  · intro e rest a b c d h
    simp [validate_index_list, h]
  · intro e rest a b c d h1 h2
    simp [validate_index_list, h1, h2]
  · intro e rest a b c d h1 h2 h3
    simp [validate_index_list, h1, h2, h3]
  · intro e rest a b c d h1 h2 h3 h4
    simp [validate_index_list, h1, h2, h3, h4]
  · intro e rest a b h
    simp [validate_index_info, h]
  · intro e rest a b h1 h2
    simp [validate_index_info, h1, h2]

/-- Claim C7, witness: every divergence kind exercised on concrete catalog
entries, with the raised message in each case. -/
theorem validate_detects_divergences_witness :
    validate_master [] "music" "table" "Track" "Track" =
      .error (.database_inconsistency
        ("Item " ++ "Track" ++ " of type " ++ "table" ++
          " (relating to table " ++ "Track" ++ ") missing from DB " ++
          "music")) ∧
    validate_master [⟨"music", "AlbumArt", "AlbumArt"⟩] "music" "table"
        "Track" "Track" =
      .error (.database_inconsistency
        ("Item " ++ "AlbumArt" ++ " of type " ++ "table" ++
          " (relating to table " ++ "AlbumArt" ++ ") on " ++ "music" ++
          " in wrong order, expected " ++ "Track" ++
          " (relating to table " ++ "Track" ++ ")")) ∧
    validate_table_info [] "id" "INTEGER" 0 "" 1 =
      .error (.database_inconsistency
        ("Column " ++ "id" ++ " missing")) ∧
    validate_table_info [⟨"music", "Track", 0, "id", "INTEGER", 0, "", 1⟩]
        "bpm" "INTEGER" 0 "" 1 =
      .error (.database_inconsistency
        ("Column " ++ "id" ++ " on " ++ "Track" ++
          " in wrong order, expected " ++ "bpm")) ∧
    validate_table_info [⟨"music", "Track", 0, "id", "INTEGER", 0, "", 1⟩]
        "id" "NUMERIC" 0 "" 1 =
      .error (.database_inconsistency
        ("Column " ++ "id" ++ " on " ++ "Track" ++
          " has wrong type: " ++ "INTEGER" ++ ", expected " ++ "NUMERIC")) ∧
    validate_table_info [⟨"music", "Track", 0, "id", "INTEGER", 0, "", 1⟩]
        "id" "INTEGER" 1 "" 1 =
      .error (.database_inconsistency
        ("Column " ++ "id" ++ " on " ++ "Track" ++
          " has wrong nullability: " ++ toString (0 : Int))) ∧
    validate_table_info [⟨"music", "Track", 0, "id", "INTEGER", 0, "", 1⟩]
        "id" "INTEGER" 0 "0" 1 =
      .error (.database_inconsistency
        ("Column " ++ "id" ++ " on " ++ "Track" ++
          " has wrong default value: \"" ++ "" ++ "\", expected \"" ++
          "0" ++ "\"")) ∧
    validate_table_info [⟨"music", "Track", 0, "id", "INTEGER", 0, "", 1⟩]
        "id" "INTEGER" 0 "" 0 =
      .error (.database_inconsistency
        ("Column " ++ "id" ++ " on " ++ "Track" ++
          " has wrong PK membership: " ++ toString (1 : Int))) ∧
    validate_index_list [] "index_Track_id" 1 "c" 0 =
      .error (.database_inconsistency
        ("Index " ++ "index_Track_id" ++ " missing")) ∧
    validate_index_list [⟨"music", "Track", 0, "index_Track_id", 0, "c", 0⟩]
        "index_Track_path" 0 "c" 0 =
      .error (.database_inconsistency
        ("Index " ++ "index_Track_id" ++ " on " ++ "Track" ++
          " in wrong order, expected " ++ "index_Track_path")) ∧
    validate_index_list [⟨"music", "Track", 0, "index_Track_id", 0, "c", 0⟩]
        "index_Track_id" 1 "c" 0 =
      .error (.database_inconsistency
        ("Index " ++ "index_Track_id" ++ " on " ++ "Track" ++
          " has wrong uniqueness: " ++ toString (0 : Int))) ∧
    validate_index_list [⟨"music", "Track", 0, "index_Track_id", 0, "c", 0⟩]
        "index_Track_id" 0 "u" 0 =
      .error (.database_inconsistency
        ("Index " ++ "index_Track_id" ++ " on " ++ "Track" ++
          " has wrong creation method: \"" ++ "c" ++ "\"")) ∧
    validate_index_list [⟨"music", "Track", 0, "index_Track_id", 0, "c", 0⟩]
        "index_Track_id" 0 "c" 1 =
      .error (.database_inconsistency
        ("Index " ++ "index_Track_id" ++ " on " ++ "Track" ++
          " has wrong \"partiality\": " ++ toString (0 : Int))) ∧
    validate_index_info [] 0 "id" =
      .error (.database_inconsistency
        ("Col " ++ "id" ++ " missing from index")) ∧
    validate_index_info [⟨"music", "index_Track_id", 0, 0, "id"⟩] 1 "id" =
      .error (.database_inconsistency
        ("Col " ++ "id" ++ " on " ++ "index_Track_id" ++
          " has wrong rank within the index: " ++ toString (0 : Int))) ∧
    validate_index_info [⟨"music", "index_Track_id", 0, 0, "id"⟩] 0 "path" =
      .error (.database_inconsistency
        ("Col " ++ "id" ++ " on " ++ "index_Track_id" ++
          " in wrong order, expected " ++ "path")) ∧
    validate_no_more [(⟨"music", "AlbumArt", "AlbumArt"⟩ :
        master_list_entry)] "Master list" "music" =
      .error (.database_inconsistency
        ("Master list" ++ " for " ++ "music" ++
          " has more entries than expected")) := by
  obtain ⟨c1, c2, c3, c4, c5, c6, c7, c8, c9, c10, c11, c12, c13, c14, c15,
    c16, c17⟩ := validate_detects_divergences
  exact ⟨c1 "music" "table" "Track" "Track",
    c2 ⟨"music", "AlbumArt", "AlbumArt"⟩ [] "music" "table" "Track" "Track"
      (by decide),
    c3 "id" "INTEGER" 0 "" 1,
    c4 ⟨"music", "Track", 0, "id", "INTEGER", 0, "", 1⟩ [] "bpm" "INTEGER"
      0 "" 1 (by decide),
    c5 ⟨"music", "Track", 0, "id", "INTEGER", 0, "", 1⟩ [] "id" "NUMERIC"
      0 "" 1 rfl (by decide),
    c6 ⟨"music", "Track", 0, "id", "INTEGER", 0, "", 1⟩ [] "id" "INTEGER"
      1 "" 1 rfl rfl (by decide),
    c7 ⟨"music", "Track", 0, "id", "INTEGER", 0, "", 1⟩ [] "id" "INTEGER"
      0 "0" 1 rfl rfl rfl (by decide),
    c8 ⟨"music", "Track", 0, "id", "INTEGER", 0, "", 1⟩ [] "id" "INTEGER"
      0 "" 0 rfl rfl rfl rfl (by decide),
    c9 "index_Track_id" 1 "c" 0,
    c10 ⟨"music", "Track", 0, "index_Track_id", 0, "c", 0⟩ []
      "index_Track_path" 0 "c" 0 (by decide),
    c11 ⟨"music", "Track", 0, "index_Track_id", 0, "c", 0⟩ []
      "index_Track_id" 1 "c" 0 rfl (by decide),
    c12 ⟨"music", "Track", 0, "index_Track_id", 0, "c", 0⟩ []
      "index_Track_id" 0 "u" 0 rfl rfl (by decide),
    c13 ⟨"music", "Track", 0, "index_Track_id", 0, "c", 0⟩ []
      "index_Track_id" 0 "c" 1 rfl rfl rfl (by decide),
    c14 0 "id",
    c15 ⟨"music", "index_Track_id", 0, 0, "id"⟩ [] 1 "id" (by decide),
    c16 ⟨"music", "index_Track_id", 0, 0, "id"⟩ [] 0 "path" rfl
      (by decide),
    c17 master_list_entry ⟨"music", "AlbumArt", "AlbumArt"⟩ []
      "Master list" "music"⟩

end EngineLibrary
